import Mathlib

/-
Verification of the Track/Playlist/Page backend (be-thefunneleffect).

Shallow embedding of the repository code:
- src/models/Playlist.js (Playlist and Track mongoose schemas and the
  trackCount pre-save hook),
- src/models/Page.js (Page schema, slug-generating and slug-normalizing
  pre-save hooks),
- src/routes/tracks.js (GET/POST/PUT/DELETE /api/tracks),
- src/unnamed/part_001 (the playlists router: GET/POST/PUT/DELETE
  /api/playlists, PUT /api/playlists/:id/tracks,
  DELETE /api/playlists/:id/tracks/:trackId),
- src/unnamed/part_000 (the pages router: POST/PUT /api/pages and friends).

The MongoDB document store is modeled as association lists keyed by the
24-hex-character object id strings.  Mongoose behavior that the routes rely
on is embedded explicitly:
- document.save() runs schema validation FIRST, then the user pre-save
  hooks, then writes (mongoose registers validation as the first pre-save
  hook of every schema, so user pre-save hooks run after validation);
- Model.findByIdAndUpdate(...) does NOT run save hooks; unknown body keys
  (such as playlistId on the Track schema) are stripped by strict mode;
  atomic update operators are applied as MongoDB defines them
  (addToSet appends only when absent, pull removes all occurrences,
  inc is unconditional);
- a findByIdAndUpdate on a missing id returns null and is not an error.

Each endpoint returns an EndpointResult carrying the HTTP status, the
response body fields the claims talk about, the resulting store, and the
ordered trace of store operations the handler performed.
-/

namespace TFE

/-- Check for a well-formed MongoDB object id: exactly 24 hex characters.
Mirrors the isMongoId validator used by param('id').isMongoId() and the
inline /^[0-9a-fA-F]\x7b24\x7d$/ tests in the playlists router. -/
def isMongoId (s : String) : Bool :=
  s.length == 24 &&
    s.toList.all (fun c =>
      c.isDigit || ('a' ≤ c && c ≤ 'f') || ('A' ≤ c && c ≤ 'F'))

/-- Track document (trackSchema in src/models, second half of Playlist.js).
Fields not mentioned by any claim (duration, listeners, date, thumbnail,
trending, audioUrl) are omitted; createdAt models the timestamps option. -/
@[ext] structure Track where
  title : String := ""
  author : String := ""
  description : String := ""
  category : String := ""
  trending : Bool := false
  createdAt : Nat := 0
  playlists : List String := []
deriving Repr, DecidableEq

/-- Playlist document (playlistSchema in src/models/Playlist.js).
trackCount is an Int because the $inc: -1 update in the tracks router can
drive it below zero (findByIdAndUpdate does not run the min validator). -/
@[ext] structure Playlist where
  title : String := ""
  description : String := ""
  createdBy : String := ""
  isPublic : Bool := true
  tags : List String := []
  tracks : List String := []
  trackCount : Int := 0
  createdAt : Nat := 0
deriving Repr, DecidableEq

/-- Page document (pageSchema in src/models/Page.js).  The editorType value
required by the pages router validation chain has no schema path, so it is
not persisted and does not appear here.  The slug path has the schema
option lowercase true, applied as a setter on assignment. -/
@[ext] structure Page where
  title : String := ""
  description : String := ""
  imageUrl : String := ""
  thumbnailUrl : String := ""
  audioUrl : String := ""
  slug : String := ""
  content : String := ""
  createdAt : Nat := 0
deriving Repr, DecidableEq

/-- Look up a document by id in a collection (Model.findById / the store
side of findByIdAndUpdate).  First match wins, as for a unique _id. -/
def findDoc {α : Type} (c : List (String × α)) (i : String) : Option α :=
  (c.find? (fun e => e.1 == i)).map (fun e => e.2)

/-- Replace the document stored under an id (the write side of
findByIdAndUpdate / document.save on a loaded document). -/
def setDoc {α : Type} (c : List (String × α)) (i : String) (a : α) :
    List (String × α) :=
  c.map (fun e => if e.1 == i then (i, a) else e)

/-- Delete a document by id (Model.findByIdAndDelete). -/
def removeDoc {α : Type} (c : List (String × α)) (i : String) :
    List (String × α) :=
  c.filter (fun e => e.1 != i)

/-- The whole document store: one collection per model. -/
structure Db where
  tracks : List (String × Track) := []
  playlists : List (String × Playlist) := []
  pages : List (String × Page) := []
deriving Repr, DecidableEq

/-- One store operation, recorded in the order the handler awaits it. -/
inductive StoreOp where
  | trackSave (i : String)
  | trackFind (i : String)
  | trackUpdate (i : String)
  | trackDelete (i : String)
  | playlistSave (i : String)
  | playlistFind (i : String)
  | playlistUpdate (i : String)
  | playlistDelete (i : String)
  | pageFindOne
  | pageSave (i : String)
  | pageUpdate (i : String)
deriving Repr, DecidableEq

/-- Shape of an endpoint outcome: status and body fields the claims
mention, the store after the request, and the ordered store-op trace. -/
structure EndpointResult where
  status : Nat
  success : Bool := false
  message : String := ""
  track : Option Track := none
  playlist : Option Playlist := none
  page : Option Page := none
  db : Db
  trace : List StoreOp := []
deriving Repr, DecidableEq

/-- The 400 response produced by handleValidationErrors before any handler
runs: no store access, store unchanged. -/
def mk400 (db : Db) : EndpointResult :=
  { status := 400, success := false, message := "Validation failed", db := db, trace := [] }

/-- Decide whether pat occurs as a contiguous run inside l.  Executable
companion of List.IsInfix, used to model an unanchored regex match of a
literal (metacharacter-free) pattern. -/
def containsSub (pat : List Char) : List Char → Bool
  | [] => pat.isEmpty
  | c :: cs => pat.isPrefixOf (c :: cs) || containsSub pat cs

/-- ASCII lowercasing character by character: the behavior of the regex
i option, of JS toLowerCase, and of the mongoose lowercase setter on the
inputs considered here. -/
def lowerStr (s : String) : String :=
  String.mk (s.toList.map Char.toLower)

/-- Case-insensitive substring test: the semantics of
field: \x7b $regex: pat, $options: i \x7d for a literal pattern. -/
def ciContains (hay pat : String) : Bool :=
  containsSub (lowerStr pat).toList (lowerStr hay).toList

/- ----------------------------------------------------------------
   Track list endpoint (GET /api/tracks, src/routes/tracks.js 83-139)
   ---------------------------------------------------------------- -/

/-- Query parameters of GET /api/tracks.  An absent Option models an absent
(or falsy, hence skipped) query parameter; page and limit are taken as
already-numeric, matching the handler arithmetic on numeric input. -/
structure TrackQuery where
  page : Option Nat := none
  limit : Option Nat := none
  category : Option String := none
  author : Option String := none
  search : Option String := none
deriving Repr, DecidableEq

/-- The mongo filter built by GET /api/tracks lines 90-107, as a predicate:
category is exact equality, author is a case-insensitive regex, and search
is a case-insensitive regex OR over title/description/author/category. -/
def trackMatches (q : TrackQuery) (t : Track) : Bool :=
  (match q.category with
   | none => true
   | some c => t.category == c) &&
  (match q.author with
   | none => true
   | some a => ciContains t.author a) &&
  (match q.search with
   | none => true
   | some s =>
       ciContains t.title s || ciContains t.description s ||
       ciContains t.author s || ciContains t.category s)

/-- Insert a track into a list that is sorted by descending createdAt. -/
def insertDesc (t : Track) : List Track → List Track
  | [] => [t]
  | h :: rest =>
      if t.createdAt ≤ h.createdAt then h :: insertDesc t rest
      else t :: h :: rest

/-- Sort tracks by descending createdAt (the sort(\x7b createdAt: -1 \x7d)
stage of the list pipeline). -/
def sortByCreatedAtDesc : List Track → List Track
  | [] => []
  | h :: rest => insertDesc h (sortByCreatedAtDesc rest)

/-- The documents matching the list query, before pagination: the result
set of Track.find(query) and the count of Track.countDocuments(query). -/
def matchingTracks (db : Db) (q : TrackQuery) : List Track :=
  (db.tracks.map (fun e => e.2)).filter (trackMatches q)

/-- Pagination block of a list response. -/
structure Pagination where
  currentPage : Nat
  totalPages : Nat
  totalItems : Nat
  itemsPerPage : Nat
deriving Repr, DecidableEq

/-- Result of a list endpoint: the returned window plus the pagination
block (list endpoints do not mutate the store). -/
structure TrackListResult where
  items : List Track
  pagination : Pagination
deriving Repr, DecidableEq

/-- GET /api/tracks: build the filter, sort descending by creation time,
skip (page-1)*limit, take limit, and report the pagination block with
totalPages = ceil(total/limit) (computed as (total+limit-1)/limit for a
positive limit, exactly Math.ceil on these naturals). -/
def getTracks (db : Db) (q : TrackQuery) : TrackListResult :=
  let page := q.page.getD 1
  let limit := q.limit.getD 10
  let skip := (page - 1) * limit
  let matched := matchingTracks db q
  let total := matched.length
  { items := ((sortByCreatedAtDesc matched).drop skip).take limit,
    pagination :=
      { currentPage := page,
        totalPages := (total + limit - 1) / limit,
        totalItems := total,
        itemsPerPage := limit } }

/- ----------------------------------------------------------------
   Playlist list filter (GET /api/playlists, src/unnamed/part_001 85-144)
   ---------------------------------------------------------------- -/

/-- Query parameters of GET /api/playlists. -/
structure PlaylistQuery where
  createdBy : Option String := none
  isPublic : Option String := none
  tag : Option String := none
  search : Option String := none
deriving Repr, DecidableEq

/-- The filter built by GET /api/playlists lines 91-112: createdBy is exact
equality, isPublic compares against the literal string true, tag is a
membership test, search is a case-insensitive regex OR. -/
def playlistMatches (q : PlaylistQuery) (p : Playlist) : Bool :=
  (match q.createdBy with
   | none => true
   | some u => p.createdBy == u) &&
  (match q.isPublic with
   | none => true
   | some v => p.isPublic == (v == "true")) &&
  (match q.tag with
   | none => true
   | some tg => p.tags.contains tg) &&
  (match q.search with
   | none => true
   | some s =>
       ciContains p.title s || ciContains p.description s ||
       ciContains p.createdBy s)

/- ----------------------------------------------------------------
   Playlist persistence (src/models/Playlist.js)
   ---------------------------------------------------------------- -/

/-- The pre-save hook of playlistSchema (lines 54-60): trackCount is
recomputed from the tracks array length.  The guard if (this.tracks) is
always true because mongoose array paths default to an (empty) array. -/
def playlistPreSave (p : Playlist) : Playlist :=
  { p with trackCount := (p.tracks.length : Int) }

/-- Schema validation of a Playlist document, run by document.save()
before the user pre-save hooks: maxlength constraints, the tags cap, and
min 0 on trackCount. -/
def playlistValidate (p : Playlist) : Bool :=
  p.title.length ≤ 200 && p.description.length ≤ 500 &&
  p.createdBy.length ≤ 100 && p.tags.length ≤ 20 &&
  decide (0 ≤ p.trackCount)

/-- document.save() on a NEW playlist: validate, run the pre-save hook,
then insert.  The fresh id is supplied by the caller; insertion is
modeled as prepending (the id is fresh, so position is irrelevant). -/
def savePlaylistNew (c : List (String × Playlist)) (i : String)
    (p : Playlist) : Option (List (String × Playlist) × Playlist) :=
  if playlistValidate p then
    let q := playlistPreSave p
    some ((i, q) :: c, q)
  else none

/-- document.save() on a LOADED playlist: validate, run the pre-save hook,
then write back under the same id. -/
def savePlaylistLoaded (c : List (String × Playlist)) (i : String)
    (p : Playlist) : Option (List (String × Playlist) × Playlist) :=
  if playlistValidate p then
    let q := playlistPreSave p
    some (setDoc c i q, q)
  else none

/-- Playlist.findByIdAndUpdate(pid, \x7b $addToSet: \x7b tracks: tid \x7d,
$inc: \x7b trackCount: 1 \x7d \x7d): append tid only if absent, but
increment trackCount unconditionally; no save hooks run.  A missing pid
yields null and changes nothing (tracks.js lines 190-193 and 264-267). -/
def addToSetTrackIncCount (c : List (String × Playlist)) (pid tid : String) :
    List (String × Playlist) :=
  match findDoc c pid with
  | none => c
  | some p =>
      setDoc c pid
        { p with
          tracks := if tid ∈ p.tracks then p.tracks else p.tracks ++ [tid],
          trackCount := p.trackCount + 1 }

/-- Playlist.findByIdAndUpdate(pid, \x7b $pull: \x7b tracks: tid \x7d,
$inc: \x7b trackCount: -1 \x7d \x7d): remove every occurrence of tid and
decrement trackCount unconditionally (tracks.js lines 252-255). -/
def pullTrackDecCount (c : List (String × Playlist)) (pid tid : String) :
    List (String × Playlist) :=
  match findDoc c pid with
  | none => c
  | some p =>
      setDoc c pid
        { p with
          tracks := p.tracks.filter (fun x => x != tid),
          trackCount := p.trackCount - 1 }

/- ----------------------------------------------------------------
   Track endpoints (src/routes/tracks.js)
   ---------------------------------------------------------------- -/

/-- Request body for POST/PUT /api/tracks, restricted to the fields the
claims exercise.  An Option none is a field absent from the JSON body. -/
structure TrackBody where
  title : Option String := none
  author : Option String := none
  description : Option String := none
  category : Option String := none
  playlistId : Option String := none
deriving Repr, DecidableEq

/-- The trackValidationRules chain (tracks.js lines 23-81): optional
maxlength checks plus isMongoId on playlistId.  A present playlistId that
is not a 24-hex id — including null or the empty string, which optional()
does not skip — fails validation. -/
def trackBodyValid (b : TrackBody) : Bool :=
  (match b.title with | none => true | some s => s.length ≤ 200) &&
  (match b.author with | none => true | some s => s.length ≤ 100) &&
  (match b.description with | none => true | some s => s.length ≤ 500) &&
  (match b.category with | none => true | some s => s.length ≤ 50) &&
  (match b.playlistId with | none => true | some s => isMongoId s)

/-- new Track(trackData): schema fields from the body; playlistId has no
schema path and is dropped; playlists defaults to the empty array. -/
def newTrack (b : TrackBody) : Track :=
  { title := b.title.getD "", author := b.author.getD "",
    description := b.description.getD "", category := b.category.getD "" }

/-- Track.findByIdAndUpdate(id, updateData, ...): apply the supplied
schema fields; strict mode silently strips the unknown playlistId key, so
the persisted playlists array is untouched here. -/
def applyTrackUpdate (t : Track) (b : TrackBody) : Track :=
  { t with
    title := b.title.getD t.title,
    author := b.author.getD t.author,
    description := b.description.getD t.description,
    category := b.category.getD t.category }

/-- GET /api/tracks/:id (tracks.js lines 141-172). -/
def getTrackById (db : Db) (rawId : String) : EndpointResult :=
  if isMongoId rawId = false then mk400 db
  else
    match findDoc db.tracks rawId with
    | none =>
        { status := 404, success := false, message := "Track not found",
          db := db, trace := [StoreOp.trackFind rawId] }
    | some t =>
        { status := 200, success := true, track := some t,
          db := db, trace := [StoreOp.trackFind rawId] }

/-- POST /api/tracks (tracks.js lines 174-216).  After the track document
is saved, and only when a playlistId was supplied, the handler updates the
playlist with addToSet/inc and then writes the playlist id into the
track's own playlists field with a second save.  The whole playlist-side
block sits in a try/catch that only logs: playlistStepThrows = true models
a store exception thrown by the awaited Playlist.findByIdAndUpdate, which
skips the rest of the try block but never aborts the request. -/
def postTrack (db : Db) (newId : String) (b : TrackBody)
    (playlistStepThrows : Bool) : EndpointResult :=
  if trackBodyValid b = false then mk400 db
  else
    let t := newTrack b
    let db1 : Db := { db with tracks := (newId, t) :: db.tracks }
    match b.playlistId with
    | none =>
        { status := 201, success := true,
          message := "Track created successfully", track := some t,
          db := db1, trace := [StoreOp.trackSave newId] }
    | some pid =>
        if playlistStepThrows then
          { status := 201, success := true,
            message := "Track created successfully", track := some t,
            db := db1,
            trace := [StoreOp.trackSave newId, StoreOp.playlistUpdate pid] }
        else
          let pls := addToSetTrackIncCount db1.playlists pid newId
          let t2 := { t with playlists := [pid] }
          let db2 : Db :=
            { db1 with playlists := pls, tracks := setDoc db1.tracks newId t2 }
          { status := 201, success := true,
            message := "Track created successfully", track := some t2,
            db := db2,
            trace := [StoreOp.trackSave newId, StoreOp.playlistUpdate pid,
                      StoreOp.trackSave newId] }

/-- PUT /api/tracks/:id (tracks.js lines 218-291).  The track document is
updated first via findByIdAndUpdate.  When the body carries a playlistId
key the handler pulls the track id out of every playlist in the track's
OLD playlists array (pull + inc -1 each), then, for a truthy playlistId,
adds it to the new playlist (addToSet + inc 1) and assigns
track.playlists = [playlistId] on the IN-MEMORY response object only:
no further track.save() follows, so the persisted playlists field keeps
its old value.  The falsy-playlistId branch (track.playlists = []) is
likewise in-memory only, and is unreachable through the validation chain
because a present playlistId must be a 24-hex id. -/
def putTrack (db : Db) (rawId : String) (b : TrackBody) : EndpointResult :=
  if isMongoId rawId = false then mk400 db
  else if trackBodyValid b = false then mk400 db
  else
    match findDoc db.tracks rawId with
    | none =>
        { status := 404, success := false, message := "Track not found",
          db := db, trace := [StoreOp.trackFind rawId] }
    | some current =>
        let updated := applyTrackUpdate current b
        let tracks1 := setDoc db.tracks rawId updated
        match b.playlistId with
        | none =>
            { status := 200, success := true,
              message := "Track updated successfully", track := some updated,
              db := { db with tracks := tracks1 },
              trace := [StoreOp.trackFind rawId, StoreOp.trackUpdate rawId] }
        | some pid =>
            let afterPull :=
              current.playlists.foldl
                (fun c q => pullTrackDecCount c q rawId) db.playlists
            if pid.isEmpty then
              { status := 200, success := true,
                message := "Track updated successfully",
                track := some { updated with playlists := [] },
                db := { db with tracks := tracks1, playlists := afterPull },
                trace :=
                  StoreOp.trackFind rawId :: StoreOp.trackUpdate rawId ::
                    current.playlists.map StoreOp.playlistUpdate }
            else
              let afterAdd := addToSetTrackIncCount afterPull pid rawId
              { status := 200, success := true,
                message := "Track updated successfully",
                track := some { updated with playlists := [pid] },
                db := { db with tracks := tracks1, playlists := afterAdd },
                trace :=
                  StoreOp.trackFind rawId :: StoreOp.trackUpdate rawId ::
                    (current.playlists.map StoreOp.playlistUpdate ++
                      [StoreOp.playlistUpdate pid]) }

/-- DELETE /api/tracks/:id (tracks.js lines 293-325): deletes the track
document and touches nothing else — in particular no playlist document. -/
def deleteTrack (db : Db) (rawId : String) : EndpointResult :=
  if isMongoId rawId = false then mk400 db
  else
    match findDoc db.tracks rawId with
    | none =>
        { status := 404, success := false, message := "Track not found",
          db := db, trace := [StoreOp.trackDelete rawId] }
    | some t =>
        { status := 200, success := true,
          message := "Track deleted successfully", track := some t,
          db := { db with tracks := removeDoc db.tracks rawId },
          trace := [StoreOp.trackDelete rawId] }

/- ----------------------------------------------------------------
   Playlist endpoints (src/unnamed/part_001)
   ---------------------------------------------------------------- -/

/-- Request body for POST/PUT /api/playlists. -/
structure PlaylistBody where
  title : Option String := none
  description : Option String := none
  createdBy : Option String := none
  isPublic : Option Bool := none
  tags : Option (List String) := none
  tracks : Option (List String) := none
deriving Repr, DecidableEq

/-- The playlistValidationRules chain (part_001 lines 23-83). -/
def playlistBodyValid (b : PlaylistBody) : Bool :=
  (match b.title with | none => true | some s => s.length ≤ 200) &&
  (match b.description with | none => true | some s => s.length ≤ 500) &&
  (match b.createdBy with | none => true | some s => s.length ≤ 100) &&
  (match b.tracks with | none => true | some l => l.all isMongoId) &&
  (match b.tags with | none => true | some l => l.length ≤ 20)

/-- new Playlist(playlistData): schema fields from the body with schema
defaults (tracks [], trackCount 0, isPublic true). -/
def newPlaylist (b : PlaylistBody) : Playlist :=
  { title := b.title.getD "", description := b.description.getD "",
    createdBy := b.createdBy.getD "", isPublic := b.isPublic.getD true,
    tags := b.tags.getD [], tracks := b.tracks.getD [] }

/-- Playlist.findByIdAndUpdate(id, updateData): apply the supplied schema
fields; no save hooks run, so trackCount is NOT recomputed even when the
tracks array is replaced. -/
def applyPlaylistUpdate (p : Playlist) (b : PlaylistBody) : Playlist :=
  { p with
    title := b.title.getD p.title,
    description := b.description.getD p.description,
    createdBy := b.createdBy.getD p.createdBy,
    isPublic := b.isPublic.getD p.isPublic,
    tags := b.tags.getD p.tags,
    tracks := b.tracks.getD p.tracks }

/-- GET /api/playlists/:id (part_001 lines 146-177). -/
def getPlaylistById (db : Db) (rawId : String) : EndpointResult :=
  if isMongoId rawId = false then mk400 db
  else
    match findDoc db.playlists rawId with
    | none =>
        { status := 404, success := false, message := "Playlist not found",
          db := db, trace := [StoreOp.playlistFind rawId] }
    | some p =>
        { status := 200, success := true, playlist := some p,
          db := db, trace := [StoreOp.playlistFind rawId] }

/-- POST /api/playlists (part_001 lines 179-208): new Playlist + save,
so the trackCount hook runs. -/
def postPlaylist (db : Db) (newId : String) (b : PlaylistBody) :
    EndpointResult :=
  if playlistBodyValid b = false then mk400 db
  else
    match savePlaylistNew db.playlists newId (newPlaylist b) with
    | none =>
        { status := 500, success := false,
          message := "Error creating playlist", db := db,
          trace := [StoreOp.playlistSave newId] }
    | some (c, p) =>
        { status := 201, success := true,
          message := "Playlist created successfully", playlist := some p,
          db := { db with playlists := c },
          trace := [StoreOp.playlistSave newId] }

/-- PUT /api/playlists/:id (part_001 lines 210-248): a generic
findByIdAndUpdate — no save hooks, trackCount not recomputed. -/
def putPlaylist (db : Db) (rawId : String) (b : PlaylistBody) :
    EndpointResult :=
  if isMongoId rawId = false then mk400 db
  else if playlistBodyValid b = false then mk400 db
  else
    match findDoc db.playlists rawId with
    | none =>
        { status := 404, success := false, message := "Playlist not found",
          db := db, trace := [StoreOp.playlistUpdate rawId] }
    | some p =>
        let p2 := applyPlaylistUpdate p b
        { status := 200, success := true,
          message := "Playlist updated successfully", playlist := some p2,
          db := { db with playlists := setDoc db.playlists rawId p2 },
          trace := [StoreOp.playlistUpdate rawId] }

/-- DELETE /api/playlists/:id (part_001 lines 250-282). -/
def deletePlaylist (db : Db) (rawId : String) : EndpointResult :=
  if isMongoId rawId = false then mk400 db
  else
    match findDoc db.playlists rawId with
    | none =>
        { status := 404, success := false, message := "Playlist not found",
          db := db, trace := [StoreOp.playlistDelete rawId] }
    | some p =>
        { status := 200, success := true,
          message := "Playlist deleted successfully", playlist := some p,
          db := { db with playlists := removeDoc db.playlists rawId },
          trace := [StoreOp.playlistDelete rawId] }

/-- PUT /api/playlists/:id/tracks (part_001 lines 284-338): validate the
trackIds entries, load the playlist, push each id not already present
(checked against the evolving array, so duplicates inside trackIds are
also skipped), then save — which re-runs the trackCount hook. -/
def addTracksToPlaylist (db : Db) (rawId : String) (trackIds : List String) :
    EndpointResult :=
  if isMongoId rawId = false then mk400 db
  else if trackIds.all isMongoId = false then
    { status := 400, success := false,
      message := "Invalid track ID format", db := db, trace := [] }
  else
    match findDoc db.playlists rawId with
    | none =>
        { status := 404, success := false, message := "Playlist not found",
          db := db, trace := [StoreOp.playlistFind rawId] }
    | some p =>
        let merged :=
          trackIds.foldl
            (fun ts tid => if tid ∈ ts then ts else ts ++ [tid]) p.tracks
        match savePlaylistLoaded db.playlists rawId { p with tracks := merged } with
        | none =>
            { status := 500, success := false,
              message := "Error adding tracks to playlist", db := db,
              trace := [StoreOp.playlistFind rawId, StoreOp.playlistSave rawId] }
        | some (c, p2) =>
            { status := 200, success := true,
              message := "Tracks added to playlist successfully",
              playlist := some p2,
              db := { db with playlists := c },
              trace := [StoreOp.playlistFind rawId, StoreOp.playlistSave rawId] }

/-- DELETE /api/playlists/:id/tracks/:trackId (part_001 lines 340-379):
filter the id out of the tracks array and save (hook recomputes the
count).  Both path parameters are validated first. -/
def removeTrackFromPlaylist (db : Db) (rawId trackId : String) :
    EndpointResult :=
  if (isMongoId rawId && isMongoId trackId) = false then mk400 db
  else
    match findDoc db.playlists rawId with
    | none =>
        { status := 404, success := false, message := "Playlist not found",
          db := db, trace := [StoreOp.playlistFind rawId] }
    | some p =>
        let filtered := p.tracks.filter (fun x => x != trackId)
        match savePlaylistLoaded db.playlists rawId { p with tracks := filtered } with
        | none =>
            { status := 500, success := false,
              message := "Error removing track from playlist", db := db,
              trace := [StoreOp.playlistFind rawId, StoreOp.playlistSave rawId] }
        | some (c, p2) =>
            { status := 200, success := true,
              message := "Track removed from playlist successfully",
              playlist := some p2,
              db := { db with playlists := c },
              trace := [StoreOp.playlistFind rawId, StoreOp.playlistSave rawId] }

/- ----------------------------------------------------------------
   Page persistence and endpoints
   (src/models/Page.js and src/unnamed/part_000)
   ---------------------------------------------------------------- -/

/-- Characters in the remove option passed to slugify by both pre-save
hooks of pageSchema: the regex class [*+~.()'"!:@]. -/
def slugifyRemoveSet : List Char :=
  ['*', '+', '~', '.', '(', ')', '\'', '"', '!', ':', '@']

/-- ASCII alphanumeric test, the [A-Za-z0-9] class of slugify strict
mode. -/
def isAlnumAscii (c : Char) : Bool :=
  c.isDigit || ('A' ≤ c && c ≤ 'Z') || ('a' ≤ c && c ≤ 'z')

/-- Replace every maximal whitespace run with a single hyphen,
the .replace of whitespace runs with the replacement character in
slugify.  The Bool argument tracks whether the previous character was
part of a run already replaced. -/
def collapseSpacesAux : Bool → List Char → List Char
  | _, [] => []
  | inRun, c :: cs =>
      if c.isWhitespace then
        if inRun then collapseSpacesAux true cs
        else '-' :: collapseSpacesAux true cs
      else c :: collapseSpacesAux false cs

/-- Drop leading and trailing whitespace. -/
def trimChars (l : List Char) : List Char :=
  ((l.dropWhile Char.isWhitespace).reverse.dropWhile Char.isWhitespace).reverse

/-- The npm slugify function at the option set used by pageSchema
(lower true, strict true, remove [*+~.()'"!:@]), restricted to inputs on
which the library character map is the identity (ASCII).  In its
per-character pass the library first turns the replacement character
(the default hyphen) into a space — so input hyphens survive the strict
filter — and applies the remove regex; then strict mode strips everything
that is not ASCII alphanumeric or whitespace, the result is trimmed,
whitespace runs are replaced by single hyphens (restoring the preserved
hyphens), and the lower option lowercases. -/
def slugify (s : String) : String :=
  let s0 := s.toList.map (fun c => if c = '-' then ' ' else c)
  let s1 := s0.filter (fun c => !(slugifyRemoveSet.contains c))
  let s2 := s1.filter (fun c => isAlnumAscii c || c.isWhitespace)
  String.mk ((collapseSpacesAux false (trimChars s2)).map Char.toLower)

/-- Request body for POST/PUT /api/pages, restricted to claim-relevant
fields. -/
structure PageBody where
  title : Option String := none
  description : Option String := none
  imageUrl : Option String := none
  thumbnailUrl : Option String := none
  audioUrl : Option String := none
  editorType : Option String := none
  slug : Option String := none
  content : Option String := none
deriving Repr, DecidableEq

/-- Abstraction of the validator.js isURL check on imageUrl/thumbnailUrl
(external library): the claims never depend on URL syntax, only on the
field being present and nonempty. -/
def isUrlLike (s : String) : Bool := !s.isEmpty

/-- The pageValidationRules chain (part_000 lines 22-80): title,
description, imageUrl, thumbnailUrl and editorType are required, with
length caps and the editorType enum; slug is optional with maxlength
100. -/
def pageBodyValid (b : PageBody) : Bool :=
  (match b.title with | none => false | some s => !s.isEmpty && s.length ≤ 200) &&
  (match b.description with | none => false | some s => !s.isEmpty && s.length ≤ 500) &&
  (match b.imageUrl with | none => false | some s => isUrlLike s) &&
  (match b.thumbnailUrl with | none => false | some s => isUrlLike s) &&
  (match b.editorType with
   | none => false
   | some s => s == "summernote" || s == "quill") &&
  (match b.slug with | none => true | some s => s.length ≤ 100)

/-- new Page(pageData): schema fields from the body; the slug path has a
lowercase setter that fires on assignment; editorType has no schema path
and is dropped. -/
def newPage (b : PageBody) : Page :=
  { title := b.title.getD "", description := b.description.getD "",
    imageUrl := b.imageUrl.getD "", thumbnailUrl := b.thumbnailUrl.getD "",
    audioUrl := b.audioUrl.getD "",
    slug := lowerStr (b.slug.getD ""),
    content := b.content.getD "" }

/-- Schema validation of a Page document: required (and hence nonempty)
title, description, imageUrl, thumbnailUrl and slug plus maxlength caps.
document.save() runs this BEFORE the user pre-save hooks, because
mongoose registers validation as the first pre-save hook of the schema —
so a missing slug fails here before the slug-generating hook can run. -/
def pageValidate (p : Page) : Bool :=
  !p.title.isEmpty && p.title.length ≤ 200 &&
  !p.description.isEmpty && p.description.length ≤ 500 &&
  !p.imageUrl.isEmpty && !p.thumbnailUrl.isEmpty &&
  !p.slug.isEmpty && p.slug.length ≤ 100

/-- The two user pre-save hooks of pageSchema (lines 106-128), in order:
derive the slug from the title when the slug is empty, then re-normalize
whatever slug is present through slugify. -/
def pagePreSaveHooks (p : Page) : Page :=
  let p1 :=
    if p.slug.isEmpty && !p.title.isEmpty then
      { p with slug := slugify p.title }
    else p
  if !p1.slug.isEmpty then { p1 with slug := slugify p1.slug } else p1

/-- Outcome of a mongoose save on the Page model. -/
inductive PageSaveOutcome where
  /-- Validation failed: a ValidationError is thrown (no error code
  11000, so the route maps it to a 500). -/
  | validationError
  /-- The store rejected the insert with a duplicate-key error
  (code 11000 on the unique slug index). -/
  | duplicateKey
  /-- The document was written. -/
  | ok (coll : List (String × Page)) (saved : Page)
deriving Repr, DecidableEq

/-- document.save() on a NEW page: validate, run the user pre-save hooks,
then insert — failing with a duplicate-key error when another document
already holds the (hook-normalized) slug, per the unique slug index. -/
def savePageNew (c : List (String × Page)) (i : String) (p : Page) :
    PageSaveOutcome :=
  if pageValidate p = false then PageSaveOutcome.validationError
  else
    let q := pagePreSaveHooks p
    if c.any (fun e => e.2.slug == q.slug) then PageSaveOutcome.duplicateKey
    else PageSaveOutcome.ok ((i, q) :: c) q

/-- POST /api/pages (part_000 lines 172-218).  When the body carries a
slug the handler first pre-checks it with findOne (the lowercase setter
applies to the query filter); then it saves the new page; a store-level
duplicate-key error (code 11000 on slug) is re-mapped to the SAME 400
response as the pre-check, and any other save error yields a 500.
The race parameter lists documents committed by concurrent requests
between the pre-check read and the insert: the pre-check sees db.pages,
the insert sees db.pages ++ race; a sequential caller passes []. -/
def postPage (db : Db) (race : List (String × Page)) (newId : String)
    (b : PageBody) : EndpointResult :=
  if pageBodyValid b = false then mk400 db
  else
    let dup :=
      match b.slug with
      | none => false
      | some s => db.pages.any (fun e => e.2.slug == lowerStr s)
    if dup then
      { status := 400, success := false,
        message := "A page with this slug already exists", db := db,
        trace := [StoreOp.pageFindOne] }
    else
      match savePageNew (db.pages ++ race) newId (newPage b) with
      | PageSaveOutcome.validationError =>
          { status := 500, success := false, message := "Error creating page",
            db := db, trace := [StoreOp.pageFindOne, StoreOp.pageSave newId] }
      | PageSaveOutcome.duplicateKey =>
          { status := 400, success := false,
            message := "A page with this slug already exists", db := db,
            trace := [StoreOp.pageFindOne, StoreOp.pageSave newId] }
      | PageSaveOutcome.ok c q =>
          { status := 201, success := true,
            message := "Page created successfully", page := some q,
            db := { db with pages := c },
            trace := [StoreOp.pageFindOne, StoreOp.pageSave newId] }

/-- Page.findByIdAndUpdate(id, updateData): apply the supplied schema
fields (slug through its lowercase setter); the slug pre-save hooks do
NOT run on findByIdAndUpdate. -/
def applyPageUpdate (p : Page) (b : PageBody) : Page :=
  { p with
    title := b.title.getD p.title,
    description := b.description.getD p.description,
    imageUrl := b.imageUrl.getD p.imageUrl,
    thumbnailUrl := b.thumbnailUrl.getD p.thumbnailUrl,
    audioUrl := b.audioUrl.getD p.audioUrl,
    slug := match b.slug with | none => p.slug | some s => lowerStr s,
    content := b.content.getD p.content }

/-- PUT /api/pages/:id (part_000 lines 220-281).  When the body carries a
slug the handler pre-checks it against every OTHER document; then
findByIdAndUpdate writes the update, and a store-level duplicate-key
error on the unique slug index (another document holding the new slug at
write time) is re-mapped to the SAME 400 response as the pre-check.
As in postPage, race lists concurrently committed pages: the pre-check
sees db.pages, the write sees db.pages ++ race. -/
def putPage (db : Db) (race : List (String × Page)) (rawId : String)
    (b : PageBody) : EndpointResult :=
  if isMongoId rawId = false then mk400 db
  else if pageBodyValid b = false then mk400 db
  else
    let dup :=
      match b.slug with
      | none => false
      | some s =>
          db.pages.any (fun e => e.1 != rawId && e.2.slug == lowerStr s)
    if dup then
      { status := 400, success := false,
        message := "A page with this slug already exists", db := db,
        trace := [StoreOp.pageFindOne] }
    else
      let coll := db.pages ++ race
      match findDoc coll rawId with
      | none =>
          { status := 404, success := false, message := "Page not found",
            db := db, trace := [StoreOp.pageFindOne, StoreOp.pageUpdate rawId] }
      | some p =>
          let p2 := applyPageUpdate p b
          if coll.any (fun e => e.1 != rawId && e.2.slug == p2.slug) then
            { status := 400, success := false,
              message := "A page with this slug already exists", db := db,
              trace := [StoreOp.pageFindOne, StoreOp.pageUpdate rawId] }
          else
            { status := 200, success := true,
              message := "Page updated successfully", page := some p2,
              db := { db with pages := setDoc coll rawId p2 },
              trace := [StoreOp.pageFindOne, StoreOp.pageUpdate rawId] }

/- ----------------------------------------------------------------
   Helper lemmas about the store model
   ---------------------------------------------------------------- -/

theorem findDoc_setDoc_some {α : Type} {c : List (String × α)} {i : String}
    {x : α} (a : α) (h : findDoc c i = some x) :
    findDoc (setDoc c i a) i = some a := by
  induction c with
  | nil => simp [findDoc] at h
  | cons e rest ih =>
      cases he : (e.1 == i) with
      | true =>
          simp only [findDoc, setDoc, List.map_cons, he, if_true]
          rw [List.find?_cons_of_pos _ (by simp)]
          rfl
      | false =>
          have h' : findDoc rest i = some x := by
            unfold findDoc at h
            rwa [List.find?_cons_of_neg _ (by simp [he])] at h
          simp only [findDoc, setDoc, List.map_cons, he, Bool.false_eq_true,
            if_false]
          rw [List.find?_cons_of_neg _ (by simp [he])]
          exact ih h'

theorem findDoc_removeDoc_self {α : Type} (c : List (String × α))
    (i : String) : findDoc (removeDoc c i) i = none := by
  induction c with
  | nil => simp [findDoc, removeDoc]
  | cons e rest ih =>
      cases he : (e.1 == i) with
      | true =>
          have hne : (e.1 != i) = false := by simp [bne, he]
          simpa only [removeDoc, List.filter_cons, hne, Bool.false_eq_true,
            if_false] using ih
      | false =>
          have hne : (e.1 != i) = true := by simp [bne, he]
          simp only [removeDoc, List.filter_cons, hne, if_true]
          unfold findDoc
          rw [List.find?_cons_of_neg _ (by simp [he])]
          exact ih

theorem containsSub_spec (pat l : List Char) :
    containsSub pat l = true ↔ pat <:+: l := by
  induction l with
  | nil =>
      simp only [containsSub, List.isEmpty_iff]
      exact List.infix_nil.symm
  | cons c cs ih =>
      simp only [containsSub, Bool.or_eq_true, ih,
        List.isPrefixOf_iff_prefix]
      exact List.infix_cons_iff.symm

theorem mem_insertDesc {x t : Track} {l : List Track} :
    x ∈ insertDesc t l ↔ x = t ∨ x ∈ l := by
  induction l with
  | nil => simp [insertDesc]
  | cons h rest ih =>
      by_cases hc : t.createdAt ≤ h.createdAt
      · simp only [insertDesc, hc, if_true, List.mem_cons, ih]
        tauto
      · simp [insertDesc, hc]

theorem mem_sortByCreatedAtDesc {x : Track} {l : List Track} :
    x ∈ sortByCreatedAtDesc l ↔ x ∈ l := by
  induction l with
  | nil => simp [sortByCreatedAtDesc]
  | cons h rest ih => simp [sortByCreatedAtDesc, mem_insertDesc, ih]

theorem length_insertDesc (t : Track) (l : List Track) :
    (insertDesc t l).length = l.length + 1 := by
  induction l with
  | nil => rfl
  | cons h rest ih =>
      by_cases hc : t.createdAt ≤ h.createdAt <;>
        simp [insertDesc, hc, ih]

theorem length_sortByCreatedAtDesc (l : List Track) :
    (sortByCreatedAtDesc l).length = l.length := by
  induction l with
  | nil => rfl
  | cons h rest ih => simp [sortByCreatedAtDesc, length_insertDesc, ih]

theorem length_filter_ne_of_mem_nodup {l : List String} {a : String}
    (hnd : l.Nodup) (ha : a ∈ l) :
    (l.filter (fun x => x != a)).length = l.length - 1 := by
  induction l with
  | nil => cases ha
  | cons b rest ih =>
      have hb : b ∉ rest := (List.nodup_cons.mp hnd).1
      have hrest : rest.Nodup := (List.nodup_cons.mp hnd).2
      rcases List.mem_cons.mp ha with h | h
      · subst h
        have hkeep : rest.filter (fun x => x != a) = rest :=
          List.filter_eq_self.mpr (fun x hx => by
            simp only [bne_iff_ne, ne_eq, decide_eq_true_eq]
            exact fun hxa => hb (hxa ▸ hx))
        simp [List.filter_cons, hkeep]
      · have hba : (b != a) = true := by
          simp only [bne_iff_ne, ne_eq, decide_eq_true_eq]
          exact fun hba => hb (hba ▸ h)
        have hpos : 1 ≤ rest.length := List.length_pos.mpr (by
          intro hnil; rw [hnil] at h; cases h)
        simp only [List.filter_cons, hba, if_true, List.length_cons, ih hrest h]
        omega

/- ----------------------------------------------------------------
   Concrete object ids and documents used by concrete scenarios
   ---------------------------------------------------------------- -/

/-- A concrete 24-hex object id. -/
def hexA : String := "aaaaaaaaaaaaaaaaaaaaaaaa"

/-- A concrete 24-hex object id. -/
def hexB : String := "bbbbbbbbbbbbbbbbbbbbbbbb"

/-- A concrete 24-hex object id. -/
def hexC : String := "cccccccccccccccccccccccc"

/-- A concrete 24-hex object id. -/
def hexD : String := "dddddddddddddddddddddddd"

/-- A concrete 24-hex object id. -/
def hexE : String := "eeeeeeeeeeeeeeeeeeeeeeee"

/- ----------------------------------------------------------------
   C1: trackCount = length(tracks) after every successful write
   ---------------------------------------------------------------- -/

/-- Store for the C1 counterexample: one playlist, empty, count 0. -/
def dbC1 : Db := { playlists := [(hexB, {})] }

/-- C1 counterexample: the claim says every successful Playlist write —
including the generic update PUT /api/playlists/:id — leaves
trackCount = length(tracks).  A successful generic update that replaces
the tracks array refutes it: findByIdAndUpdate runs no save hooks, so the
stored playlist ends with tracks = [id] but trackCount = 0. -/
theorem C1_counterexample :
    (putPlaylist dbC1 hexB { tracks := some [hexC] }).status = 200 ∧
    (putPlaylist dbC1 hexB { tracks := some [hexC] }).success = true ∧
    (findDoc (putPlaylist dbC1 hexB { tracks := some [hexC] }).db.playlists
        hexB).map (fun p => (p.trackCount, p.tracks.length)) =
      some ((0 : Int), 1) ∧
    (0 : Int) ≠ ((1 : Nat) : Int) := by
  refine ⟨by decide, by decide, by decide, by decide⟩

/-- C1 (amended): the invariant trackCount = length(tracks) holds after
every Playlist write that goes through document.save() — playlist create,
bulk track add, single track remove — because the pre-save hook recomputes
the count; the findByIdAndUpdate-based playlist-side updates performed
during track create/update preserve the invariant exactly when the
membership operation is effective (the added id was absent, resp. the
pulled id occurred exactly once), and the generic playlist update does not
re-establish it at all. -/
theorem C1_amended :
    (∀ (db : Db) (newId : String) (b : PlaylistBody),
      (postPlaylist db newId b).status = 201 →
      ∃ p, findDoc (postPlaylist db newId b).db.playlists newId = some p ∧
        p.trackCount = (p.tracks.length : Int)) ∧
    (∀ (db : Db) (i : String) (tids : List String),
      (addTracksToPlaylist db i tids).status = 200 →
      ∃ p, findDoc (addTracksToPlaylist db i tids).db.playlists i = some p ∧
        p.trackCount = (p.tracks.length : Int)) ∧
    (∀ (db : Db) (i tid : String),
      (removeTrackFromPlaylist db i tid).status = 200 →
      ∃ p, findDoc (removeTrackFromPlaylist db i tid).db.playlists i = some p ∧
        p.trackCount = (p.tracks.length : Int)) ∧
    (∀ (c : List (String × Playlist)) (pid tid : String) (p : Playlist),
      findDoc c pid = some p → p.trackCount = (p.tracks.length : Int) →
      tid ∉ p.tracks →
      ∃ q, findDoc (addToSetTrackIncCount c pid tid) pid = some q ∧
        q.trackCount = (q.tracks.length : Int)) ∧
    (∀ (c : List (String × Playlist)) (pid tid : String) (p : Playlist),
      findDoc c pid = some p → p.trackCount = (p.tracks.length : Int) →
      p.tracks.Nodup → tid ∈ p.tracks →
      ∃ q, findDoc (pullTrackDecCount c pid tid) pid = some q ∧
        q.trackCount = (q.tracks.length : Int)) := by
  refine ⟨?_, ?_, ?_, ?_, ?_⟩
  · intro db newId b h
    cases hv : playlistBodyValid b with
    | false => simp [postPlaylist, hv, mk400] at h
    | true =>
        cases hval : playlistValidate (newPlaylist b) with
        | false => simp [postPlaylist, savePlaylistNew, hv, hval] at h
        | true =>
            refine ⟨playlistPreSave (newPlaylist b), ?_, rfl⟩
            simp [postPlaylist, savePlaylistNew, hv, hval, findDoc, List.find?]
  · intro db i tids h
    cases hid : isMongoId i with
    | false => simp [addTracksToPlaylist, hid, mk400] at h
    | true =>
        cases hall : (tids.all isMongoId) with
        | false => simp [addTracksToPlaylist, hid, hall] at h
        | true =>
            cases hf : findDoc db.playlists i with
            | none => simp [addTracksToPlaylist, hid, hall, hf] at h
            | some p =>
                cases hval : (playlistValidate { p with
                    tracks := tids.foldl
                      (fun ts tid => if tid ∈ ts then ts else ts ++ [tid])
                      p.tracks }) with
                | false =>
                    simp [addTracksToPlaylist, savePlaylistLoaded, hid, hall,
                      hf, hval] at h
                | true =>
                    refine ⟨playlistPreSave { p with
                      tracks := tids.foldl
                        (fun ts tid => if tid ∈ ts then ts else ts ++ [tid])
                        p.tracks }, ?_, rfl⟩
                    simp only [addTracksToPlaylist, savePlaylistLoaded, hid,
                      hall, hf, hval, if_true, Bool.true_eq_false, if_false]
                    exact findDoc_setDoc_some _ hf
  · intro db i tid h
    cases hid : isMongoId i with
    | false => simp [removeTrackFromPlaylist, hid, mk400] at h
    | true =>
        cases htid : isMongoId tid with
        | false => simp [removeTrackFromPlaylist, hid, htid, mk400] at h
        | true =>
            cases hf : findDoc db.playlists i with
            | none => simp [removeTrackFromPlaylist, hid, htid, hf] at h
            | some p =>
                cases hval : (playlistValidate { p with
                    tracks := p.tracks.filter (fun x => x != tid) }) with
                | false =>
                    simp [removeTrackFromPlaylist, savePlaylistLoaded, hid,
                      htid, hf, hval] at h
                | true =>
                    refine ⟨playlistPreSave
                      { p with tracks := p.tracks.filter (fun x => x != tid) },
                      ?_, rfl⟩
                    simp only [removeTrackFromPlaylist, savePlaylistLoaded,
                      hid, htid, Bool.and_self, hf, hval, if_true,
                      Bool.true_eq_false, if_false]
                    exact findDoc_setDoc_some _ hf
  · intro c pid tid p hf hinv hnot
    refine ⟨({ p with tracks := p.tracks ++ [tid], trackCount := p.trackCount + 1 } : Playlist), ?_, ?_⟩
    · simp only [addToSetTrackIncCount, hf]
      rw [if_neg hnot]
      exact findDoc_setDoc_some _ hf
    · simp only [List.length_append, List.length_singleton]
      rw [hinv]; push_cast; ring
  · intro c pid tid p hf hinv hnd hmem
    refine ⟨({ p with tracks := p.tracks.filter (fun x => x != tid), trackCount := p.trackCount - 1 } : Playlist), ?_, ?_⟩
    · simp only [pullTrackDecCount, hf]
      exact findDoc_setDoc_some _ hf
    · have hlen := length_filter_ne_of_mem_nodup hnd hmem
      have hpos : 1 ≤ p.tracks.length := List.length_pos.mpr (by
        intro hnil; rw [hnil] at hmem; cases hmem)
      simp only [hlen]
      rw [hinv]
      omega

/-- C1 amended witness: playlist create at a concrete input satisfies the
invariant. -/
theorem C1_amended_witness :
    (findDoc (postPlaylist {} hexB {}).db.playlists hexB).map
      (fun p => decide (p.trackCount = (p.tracks.length : Int))) = some true := by
  obtain ⟨p, hp, hinv⟩ := C1_amended.1 {} hexB {} (by decide)
  rw [hp]
  simp [hinv]

/- ----------------------------------------------------------------
   C2: moving a track between playlists via PUT /api/tracks/:id
   ---------------------------------------------------------------- -/

/-- Store for the C2 scenario: track A in playlist P1; P2 empty. -/
def dbC2 : Db :=
  { tracks := [(hexA, { playlists := [hexB] })],
    playlists := [(hexB, { tracks := [hexA], trackCount := 1 }),
                  (hexC, { tracks := [], trackCount := 0 })] }

/-- C2: evaluation of PUT /api/tracks/:id at the failing input.  Updating
track A (in P1 = hexB) with playlistId = P2 = hexC does fix both
playlists (P1 ends with 0 tracks/count 0, P2 with [A]/count 1) and the
RESPONSE shows playlists = [P2] — but the handler assigns
track.playlists = [playlistId] on the in-memory document without a
subsequent save, and findByIdAndUpdate strips the schemaless playlistId
key, so the PERSISTED track still has playlists = [P1], contradicting the
claim that the persisted playlists field equals [P2].  With no playlistId
in the body the persisted playlists field is also untouched (it does not
become empty). -/
theorem C2_playlist_move_eval :
    (putTrack dbC2 hexA { playlistId := some hexC }).status = 200 ∧
    (putTrack dbC2 hexA { playlistId := some hexC }).track.map
        (fun t => t.playlists) = some [hexC] ∧
    (findDoc (putTrack dbC2 hexA { playlistId := some hexC }).db.tracks
        hexA).map (fun t => t.playlists) = some [hexB] ∧
    [hexB] ≠ [hexC] ∧
    (findDoc (putTrack dbC2 hexA { playlistId := some hexC }).db.playlists
        hexB).map (fun p => (p.tracks, p.trackCount)) = some ([], (0 : Int)) ∧
    (findDoc (putTrack dbC2 hexA { playlistId := some hexC }).db.playlists
        hexC).map (fun p => (p.tracks, p.trackCount)) =
      some ([hexA], (1 : Int)) ∧
    (findDoc (putTrack dbC2 hexA ({} : TrackBody)).db.tracks hexA).map
        (fun t => t.playlists) = some [hexB] := by
  refine ⟨by decide, by decide, by decide, by decide, by decide, by decide,
    by decide⟩

/- ----------------------------------------------------------------
   C3: the author filter of GET /api/tracks
   ---------------------------------------------------------------- -/

/-- Track used by the C3 scenario. -/
def trackC3 : Track := { author := "Blue Note", category := "jazz" }

/-- Store for the C3 scenario. -/
def dbC3 : Db := { tracks := [(hexA, trackC3)] }

/-- C3 counterexample: with author filter "note" the result window
contains a track whose author field is "Blue Note" — not equal to the
supplied value — so the author filter is not an exact match. -/
theorem C3_counterexample :
    (getTracks dbC3 { author := some "note" }).items = [trackC3] ∧
    trackC3.author ≠ "note" := by
  refine ⟨by decide, by decide⟩

/-- C3 (amended): the author filter is a case-insensitive substring
(unanchored regex) match, while the category filter (tracks) and the
createdBy/visibility filters (playlists) are exact; and every track in a
returned list window satisfies the filter predicate. -/
theorem C3_author_filter_semantics :
    (∀ (q : TrackQuery) (a : String) (t : Track),
      q.author = some a → q.category = none → q.search = none →
      (trackMatches q t = true ↔
        (lowerStr a).toList <:+: (lowerStr t.author).toList)) ∧
    (∀ (q : TrackQuery) (c : String) (t : Track),
      q.category = some c → q.author = none → q.search = none →
      (trackMatches q t = true ↔ t.category = c)) ∧
    (∀ (q : PlaylistQuery) (u : String) (p : Playlist),
      q.createdBy = some u → q.isPublic = none → q.tag = none →
      q.search = none →
      (playlistMatches q p = true ↔ p.createdBy = u)) ∧
    (∀ (q : PlaylistQuery) (v : String) (p : Playlist),
      q.isPublic = some v → q.createdBy = none → q.tag = none →
      q.search = none →
      (playlistMatches q p = true ↔ p.isPublic = (v == "true"))) ∧
    (∀ (db : Db) (q : TrackQuery) (t : Track),
      t ∈ (getTracks db q).items → trackMatches q t = true) := by
  refine ⟨?_, ?_, ?_, ?_, ?_⟩
  · intro q a t ha hc hs
    simp [trackMatches, ha, hc, hs, ciContains, containsSub_spec]
  · intro q c t hc ha hs
    simp [trackMatches, ha, hc, hs]
  · intro q u p hu hp ht hs
    simp [playlistMatches, hu, hp, ht, hs]
  · intro q v p hv hu ht hs
    simp [playlistMatches, hu, hv, ht, hs]
  · intro db q t ht
    have h1 : t ∈ sortByCreatedAtDesc (matchingTracks db q) :=
      List.mem_of_mem_drop (List.mem_of_mem_take ht)
    have h2 : t ∈ matchingTracks db q := mem_sortByCreatedAtDesc.mp h1
    exact (List.mem_filter.mp h2).2

/-- C3 amended witness: the author filter "note" matches the track with
author "Blue Note" (case-insensitive substring). -/
theorem C3_author_filter_semantics_witness :
    trackMatches { author := some "note" } trackC3 = true :=
  (C3_author_filter_semantics.1 { author := some "note" } "note" trackC3
    rfl rfl rfl).mpr
    ((containsSub_spec _ _).mp (by decide))

/- ----------------------------------------------------------------
   C4: idempotent track add on PUT /api/playlists/:id/tracks
   ---------------------------------------------------------------- -/

/-- C4: adding [a, b] to a playlist that already contains a and does not
contain b appends exactly b (no duplicate), and the saved trackCount —
recomputed by the pre-save hook — is the old count plus one; adding [a]
alone leaves the stored playlist literally unchanged. -/
theorem C4_idempotent_add
    (db : Db) (pid a b : String) (p : Playlist)
    (hpid : isMongoId pid = true) (ha : isMongoId a = true)
    (hb : isMongoId b = true)
    (hf : findDoc db.playlists pid = some p)
    (hval : playlistValidate p = true)
    (hinv : p.trackCount = (p.tracks.length : Int))
    (hnd : p.tracks.Nodup) (hmem : a ∈ p.tracks) (hnot : b ∉ p.tracks) :
    findDoc (addTracksToPlaylist db pid [a, b]).db.playlists pid =
      some (playlistPreSave { p with tracks := p.tracks ++ [b] }) ∧
    (p.tracks ++ [b]).Nodup ∧
    (playlistPreSave { p with tracks := p.tracks ++ [b] }).trackCount =
      p.trackCount + 1 ∧
    findDoc (addTracksToPlaylist db pid [a]).db.playlists pid = some p := by
  have hall2 : ([a, b].all isMongoId) = true := by simp [ha, hb]
  have hall1 : ([a].all isMongoId) = true := by simp [ha]
  have hmerge2 :
      [a, b].foldl (fun ts tid => if tid ∈ ts then ts else ts ++ [tid])
        p.tracks = p.tracks ++ [b] := by
    simp [List.foldl, if_pos hmem, if_neg hnot]
  have hmerge1 :
      [a].foldl (fun ts tid => if tid ∈ ts then ts else ts ++ [tid])
        p.tracks = p.tracks := by
    simp [List.foldl, if_pos hmem]
  refine ⟨?_, ?_, ?_, ?_⟩
  · simp only [addTracksToPlaylist, hpid, hall2, hf, hmerge2,
      savePlaylistLoaded, Bool.true_eq_false, if_false]
    have hval2 : playlistValidate { p with tracks := p.tracks ++ [b] } = true :=
      hval
    simp only [hval2, if_true]
    exact findDoc_setDoc_some _ hf
  · exact List.Nodup.append hnd (List.nodup_singleton b)
      (List.disjoint_singleton.mpr hnot)
  · simp only [playlistPreSave, List.length_append, List.length_singleton]
    rw [hinv]; push_cast; ring
  · simp only [addTracksToPlaylist, hpid, hall1, hf, hmerge1,
      savePlaylistLoaded, Bool.true_eq_false, if_false]
    have hval1 : playlistValidate { p with tracks := p.tracks } = true := hval
    simp only [hval1, if_true]
    have heq : playlistPreSave { p with tracks := p.tracks } = p := by
      simp only [playlistPreSave]
      rw [← hinv]
    rw [heq]
    exact findDoc_setDoc_some _ hf

/-- Playlist used by the C4 witness. -/
def pC4 : Playlist := { tracks := [hexA], trackCount := 1 }

/-- Store used by the C4 witness. -/
def dbC4 : Db := { playlists := [(hexD, pC4)] }

/-- C4 witness: with playlist [hexA], adding [hexA, hexB] stores
tracks [hexA, hexB] with count 2, and adding [hexA] alone leaves the
playlist unchanged. -/
theorem C4_idempotent_add_witness :
    findDoc (addTracksToPlaylist dbC4 hexD [hexA, hexB]).db.playlists hexD =
      some (playlistPreSave { pC4 with tracks := pC4.tracks ++ [hexB] }) ∧
    (pC4.tracks ++ [hexB]).Nodup ∧
    (playlistPreSave { pC4 with tracks := pC4.tracks ++ [hexB] }).trackCount =
      pC4.trackCount + 1 ∧
    findDoc (addTracksToPlaylist dbC4 hexD [hexA]).db.playlists hexD =
      some pC4 :=
  C4_idempotent_add dbC4 hexD hexA hexB pC4 (by decide) (by decide)
    (by decide) (by decide) (by decide) (by decide) (by decide) (by decide)
    (by decide)

/- ----------------------------------------------------------------
   C5: POST /api/tracks ordering and swallowed playlist failure
   ---------------------------------------------------------------- -/

/-- C5 counterexample: when the awaited playlist-side update throws, the
catch block swallows the error — the response still reports 201 success
with the created track — but the assignment track.playlists = [pid] in
the try block was skipped, so the created track does NOT retain the
playlist reference: its playlists field is empty, both in the response
and as persisted. -/
theorem C5_counterexample :
    (postTrack {} hexD { playlistId := some hexE } true).status = 201 ∧
    (postTrack {} hexD { playlistId := some hexE } true).success = true ∧
    (postTrack {} hexD { playlistId := some hexE } true).track.map
        (fun t => t.playlists) = some [] ∧
    (findDoc (postTrack {} hexD { playlistId := some hexE } true).db.tracks
        hexD).map (fun t => t.playlists) = some [] ∧
    ([] : List String) ≠ [hexE] := by
  refine ⟨by decide, by decide, by decide, by decide, by decide⟩

/-- C5 (amended): for POST /api/tracks with a playlistId, the track save
is always the FIRST store operation and the playlist update the second;
the request always reports 201 success whether or not the playlist step
throws; when the step throws, the track is persisted WITHOUT the playlist
reference; when it does not throw, the (possibly dangling) reference is
persisted in the track's playlists field — in particular when the
playlist does not exist, which is not a store-level error, the dangling
reference is retained and no playlist is modified. -/
theorem C5_create_ordering_and_swallow
    (db : Db) (newId : String) (b : TrackBody) (pid : String) (thr : Bool)
    (hv : trackBodyValid b = true) (hpid : b.playlistId = some pid) :
    (postTrack db newId b thr).status = 201 ∧
    (postTrack db newId b thr).success = true ∧
    (postTrack db newId b thr).trace.head? =
      some (StoreOp.trackSave newId) ∧
    (postTrack db newId b thr).trace.tail.head? =
      some (StoreOp.playlistUpdate pid) ∧
    (thr = true →
      (findDoc (postTrack db newId b thr).db.tracks newId).map
          (fun t => t.playlists) = some [] ∧
      (postTrack db newId b thr).db.playlists = db.playlists) ∧
    (thr = false →
      (findDoc (postTrack db newId b thr).db.tracks newId).map
          (fun t => t.playlists) = some [pid]) ∧
    (thr = false → findDoc db.playlists pid = none →
      (postTrack db newId b thr).db.playlists = db.playlists) := by
  have hfind0 : findDoc ((newId, newTrack b) :: db.tracks) newId =
      some (newTrack b) := by
    unfold findDoc
    rw [List.find?_cons_of_pos _ (by simp)]
    rfl
  cases thr with
  | true =>
      have hpost : postTrack db newId b true =
          { status := 201, success := true,
            message := "Track created successfully",
            track := some (newTrack b),
            db := { db with tracks := (newId, newTrack b) :: db.tracks },
            trace := [StoreOp.trackSave newId, StoreOp.playlistUpdate pid] } := by
        simp only [postTrack, hv, Bool.true_eq_false, if_false, hpid, if_true]
      rw [hpost]
      refine ⟨rfl, rfl, rfl, rfl, ?_, ?_, ?_⟩
      · intro _
        refine ⟨?_, rfl⟩
        rw [hfind0]
        rfl
      · intro hcontra; cases hcontra
      · intro hcontra; cases hcontra
  | false =>
      have hpost : postTrack db newId b false =
          { status := 201, success := true,
            message := "Track created successfully",
            track := some { newTrack b with playlists := [pid] },
            db := { db with
                    tracks := setDoc ((newId, newTrack b) :: db.tracks) newId
                      { newTrack b with playlists := [pid] },
                    playlists := addToSetTrackIncCount db.playlists pid newId },
            trace := [StoreOp.trackSave newId, StoreOp.playlistUpdate pid,
                      StoreOp.trackSave newId] } := by
        simp only [postTrack, hv, Bool.true_eq_false, if_false, hpid,
          Bool.false_eq_true]
      rw [hpost]
      refine ⟨rfl, rfl, rfl, rfl, ?_, ?_, ?_⟩
      · intro hcontra; cases hcontra
      · intro _
        rw [findDoc_setDoc_some _ hfind0]
        rfl
      · intro _ hnone
        simp only [addToSetTrackIncCount, hnone]

/-- C5 amended witness: concrete run without a thrown playlist step and a
missing playlist — the track is created first, the response succeeds, the
dangling reference is persisted, and no playlist was touched. -/
theorem C5_create_ordering_and_swallow_witness :
    (postTrack {} hexD { playlistId := some hexE } false).status = 201 ∧
    (postTrack {} hexD { playlistId := some hexE } false).trace.head? =
      some (StoreOp.trackSave hexD) ∧
    (findDoc (postTrack {} hexD { playlistId := some hexE } false).db.tracks
        hexD).map (fun t => t.playlists) = some [hexE] ∧
    (postTrack {} hexD { playlistId := some hexE } false).db.playlists = [] := by
  have h := C5_create_ordering_and_swallow {} hexD
    { playlistId := some hexE } hexE false (by decide) rfl
  exact ⟨h.1, h.2.2.1, h.2.2.2.2.2.1 rfl, h.2.2.2.2.2.2 rfl rfl⟩

/- ----------------------------------------------------------------
   C6: pagination of the list endpoints
   ---------------------------------------------------------------- -/

theorem ceil_div_ge (T l : Nat) (hl : 1 ≤ l) :
    T ≤ ((T + l - 1) / l) * l := by
  rcases Nat.eq_zero_or_pos T with hT | hT
  · simp [hT]
  · have h1 : T + l - 1 = (T - 1) + l := by omega
    rw [h1, Nat.add_div_right _ (by omega : 0 < l), Nat.add_mul, Nat.one_mul]
    have hdm := Nat.div_add_mod (T - 1) l
    rw [Nat.mul_comm] at hdm
    have hr : (T - 1) % l < l := Nat.mod_lt _ (by omega)
    generalize hD : (T - 1) / l * l = D at hdm ⊢
    omega

theorem ceil_div_lt (T l : Nat) (hl : 1 ≤ l) (hT : 1 ≤ T) :
    ((T + l - 1) / l - 1) * l < T := by
  have h1 : T + l - 1 = (T - 1) + l := by omega
  rw [h1, Nat.add_div_right _ (by omega : 0 < l)]
  simp only [Nat.add_sub_cancel]
  have hle := Nat.div_mul_le_self (T - 1) l
  generalize hD : (T - 1) / l * l = D at hle ⊢
  omega

/-- C6: list pagination.  With page and limit absent the defaults 1 and
10 apply; with supplied page ≥ 1 and limit ≥ 1 the window is
drop((page-1)*limit) then take(limit) of the sorted matching documents,
the pagination block reports currentPage, itemsPerPage, totalItems and a
totalPages that is exactly ceil(total/limit) (characterized by
total ≤ totalPages*limit and (totalPages-1)*limit < total for a nonempty
collection); for a 25-document collection with limit 10 and page 3 the
window has 5 documents and totalPages is 3. -/
theorem C6_pagination :
    (∀ (db : Db) (q : TrackQuery),
      q.page = none → q.limit = none →
      (getTracks db q).pagination.currentPage = 1 ∧
      (getTracks db q).pagination.itemsPerPage = 10 ∧
      (getTracks db q).items =
        (sortByCreatedAtDesc (matchingTracks db q)).take 10) ∧
    (∀ (db : Db) (q : TrackQuery) (p l : Nat),
      q.page = some p → q.limit = some l → 1 ≤ p → 1 ≤ l →
      (getTracks db q).pagination.currentPage = p ∧
      (getTracks db q).pagination.itemsPerPage = l ∧
      (getTracks db q).pagination.totalItems = (matchingTracks db q).length ∧
      (getTracks db q).items =
        ((sortByCreatedAtDesc (matchingTracks db q)).drop ((p - 1) * l)).take l ∧
      (getTracks db q).items.length =
        min l ((matchingTracks db q).length - (p - 1) * l) ∧
      (matchingTracks db q).length ≤
        (getTracks db q).pagination.totalPages * l ∧
      ((getTracks db q).pagination.totalPages = 0 ∨
        ((getTracks db q).pagination.totalPages - 1) * l <
          (matchingTracks db q).length) ∧
      ((matchingTracks db q).length = 25 → p = 3 → l = 10 →
        (getTracks db q).items.length = 5 ∧
        (getTracks db q).pagination.totalPages = 3)) := by
  constructor
  · intro db q hp hl
    refine ⟨?_, ?_, ?_⟩ <;> simp [getTracks, hp, hl]
  · intro db q p l hp hl hp1 hl1
    refine ⟨?_, ?_, ?_, ?_, ?_, ?_, ?_, ?_⟩
    · simp [getTracks, hp, hl]
    · simp [getTracks, hp, hl]
    · simp [getTracks, hp, hl]
    · simp [getTracks, hp, hl]
    · simp only [getTracks, hp, hl, Option.getD_some]
      rw [List.length_take, List.length_drop, length_sortByCreatedAtDesc]
    · simp only [getTracks, hp, hl, Option.getD_some]
      exact ceil_div_ge _ l hl1
    · rcases Nat.eq_zero_or_pos (matchingTracks db q).length with h0 | h0
      · left
        simp only [getTracks, hp, hl, Option.getD_some, h0]
        have : l - 1 < l := by omega
        simp [Nat.div_eq_of_lt this]
      · right
        simp only [getTracks, hp, hl, Option.getD_some]
        exact ceil_div_lt _ l hl1 h0
    · intro h25 hp3 hl10
      subst hp3; subst hl10
      constructor
      · simp only [getTracks, hp, hl, Option.getD_some]
        rw [List.length_take, List.length_drop, length_sortByCreatedAtDesc,
          h25]
        decide
      · simp only [getTracks, hp, hl, Option.getD_some, h25]

/-- Store used by the C6 witness: 25 track documents. -/
def dbC6 : Db :=
  { tracks := (List.range 25).map (fun n => ("x", ({ createdAt := n } : Track))) }

/-- Query used by the C6 witness. -/
def qC6 : TrackQuery := { page := some 3, limit := some 10 }

/-- C6 witness: 25 matching documents, limit 10, page 3 — the window has
5 documents and totalPages is 3. -/
theorem C6_pagination_witness :
    (getTracks dbC6 qC6).items.length = 5 ∧
    (getTracks dbC6 qC6).pagination.totalPages = 3 := by
  have h := C6_pagination.2 dbC6 qC6 3 10 rfl rfl (by decide) (by decide)
  exact h.2.2.2.2.2.2.2 (by decide) rfl rfl

/- ----------------------------------------------------------------
   C7: page creation with a derived slug
   ---------------------------------------------------------------- -/

/-- C8: whenever the uniqueness pre-check passes on the state it read but
the insert (resp. update) hits the store-level unique-constraint
violation on slug against the state at write time, both POST /api/pages
and PUT /api/pages/:id answer with the same user-facing 400
duplicate-slug response as a pre-check hit — not a 500 — and persist
nothing. -/
theorem C8_duplicate_slug_race :
    (∀ (db : Db) (race : List (String × Page)) (newId : String)
       (b : PageBody) (s : String),
      pageBodyValid b = true → b.slug = some s →
      pageValidate (newPage b) = true →
      db.pages.any (fun e => e.2.slug == lowerStr s) = false →
      (db.pages ++ race).any
          (fun e => e.2.slug == (pagePreSaveHooks (newPage b)).slug) = true →
      (postPage db race newId b).status = 400 ∧
      (postPage db race newId b).success = false ∧
      (postPage db race newId b).message =
        "A page with this slug already exists" ∧
      (postPage db race newId b).db = db) ∧
    (∀ (db : Db) (race : List (String × Page)) (rawId : String)
       (b : PageBody) (s : String) (p : Page),
      isMongoId rawId = true → pageBodyValid b = true → b.slug = some s →
      db.pages.any
          (fun e => e.1 != rawId && e.2.slug == lowerStr s) = false →
      findDoc (db.pages ++ race) rawId = some p →
      (db.pages ++ race).any
          (fun e => e.1 != rawId &&
            e.2.slug == (applyPageUpdate p b).slug) = true →
      (putPage db race rawId b).status = 400 ∧
      (putPage db race rawId b).success = false ∧
      (putPage db race rawId b).message =
        "A page with this slug already exists" ∧
      (putPage db race rawId b).db = db) := by
  constructor
  · intro db race newId b s hv hslug hval hpre hdup
    have hpost : postPage db race newId b =
        { status := 400, success := false,
          message := "A page with this slug already exists", db := db,
          trace := [StoreOp.pageFindOne, StoreOp.pageSave newId] } := by
      simp only [postPage, hv, Bool.true_eq_false, if_false, hslug, hpre,
        Bool.false_eq_true, savePageNew, hval, hdup, if_true]
    rw [hpost]
    exact ⟨rfl, rfl, rfl, rfl⟩
  · intro db race rawId b s p hid hv hslug hpre hfind hdup
    have hput : putPage db race rawId b =
        { status := 400, success := false,
          message := "A page with this slug already exists", db := db,
          trace := [StoreOp.pageFindOne, StoreOp.pageUpdate rawId] } := by
      simp only [putPage, hid, hv, Bool.true_eq_false, if_false, hslug, hpre,
        Bool.false_eq_true, hfind, hdup, if_true]
    rw [hput]
    exact ⟨rfl, rfl, rfl, rfl⟩

/-- Page body used by the C8 create witness. -/
def pageBodyC8 : PageBody :=
  { title := some "T", description := some "D", imageUrl := some "u",
    thumbnailUrl := some "v", editorType := some "quill",
    slug := some "taken" }

/-- Concurrently inserted page used by the C8 create witness. -/
def raceC8 : List (String × Page) :=
  [(hexB, { title := "R", description := "R", imageUrl := "u",
            thumbnailUrl := "v", slug := "taken" })]

/-- Page body used by the C8 update witness. -/
def pageBodyC8b : PageBody :=
  { title := some "T", description := some "D", imageUrl := some "u",
    thumbnailUrl := some "v", editorType := some "quill",
    slug := some "two" }

/-- Target page used by the C8 update witness. -/
def pageC8target : Page :=
  { title := "One", description := "One", imageUrl := "u",
    thumbnailUrl := "v", slug := "one" }

/-- Store used by the C8 update witness. -/
def dbC8b : Db := { pages := [(hexA, pageC8target)] }

/-- Concurrently inserted page used by the C8 update witness. -/
def raceC8b : List (String × Page) :=
  [(hexC, { title := "R", description := "R", imageUrl := "u",
            thumbnailUrl := "v", slug := "two" })]

/-- C8 witness: concrete duplicate-slug races on create and on update
both answer 400 with the duplicate-slug message and leave the store
unchanged. -/
theorem C8_duplicate_slug_race_witness :
    (postPage {} raceC8 hexD pageBodyC8).status = 400 ∧
    (postPage {} raceC8 hexD pageBodyC8).message =
      "A page with this slug already exists" ∧
    (putPage dbC8b raceC8b hexA pageBodyC8b).status = 400 ∧
    (putPage dbC8b raceC8b hexA pageBodyC8b).message =
      "A page with this slug already exists" := by
  have h1 := C8_duplicate_slug_race.1 {} raceC8 hexD pageBodyC8 "taken"
    (by decide) rfl (by decide) (by decide) (by decide)
  have h2 := C8_duplicate_slug_race.2 dbC8b raceC8b hexA pageBodyC8b "two"
    pageC8target (by decide) (by decide) rfl (by decide) (by decide)
    (by decide)
  exact ⟨h1.1, h1.2.2.1, h2.1, h2.2.2.1⟩

/- ----------------------------------------------------------------
   C9: deleting a referenced track does not cascade
   ---------------------------------------------------------------- -/

/-- C9: deleting a track that some playlist still references removes the
track document and leaves the ENTIRE playlists collection unchanged: the
referencing playlist still lists the deleted id and its trackCount is
untouched. -/
theorem C9_delete_track_frame
    (db : Db) (tid pid : String) (t : Track) (p : Playlist)
    (htid : isMongoId tid = true)
    (hT : findDoc db.tracks tid = some t)
    (hP : findDoc db.playlists pid = some p)
    (hmem : tid ∈ p.tracks) :
    (deleteTrack db tid).status = 200 ∧
    (deleteTrack db tid).success = true ∧
    findDoc (deleteTrack db tid).db.tracks tid = none ∧
    (deleteTrack db tid).db.playlists = db.playlists ∧
    findDoc (deleteTrack db tid).db.playlists pid = some p ∧
    tid ∈ p.tracks := by
  have hdel : deleteTrack db tid =
      { status := 200, success := true,
        message := "Track deleted successfully", track := some t,
        db := { db with tracks := removeDoc db.tracks tid },
        trace := [StoreOp.trackDelete tid] } := by
    simp only [deleteTrack, htid, Bool.true_eq_false, if_false, hT]
  rw [hdel]
  exact ⟨rfl, rfl, findDoc_removeDoc_self _ _, rfl, hP, hmem⟩

/-- Track used by the C9 witness. -/
def trackC9 : Track := { playlists := [hexB] }

/-- Playlist used by the C9 witness: references the track. -/
def playlistC9 : Playlist := { tracks := [hexA], trackCount := 1 }

/-- Store used by the C9 witness. -/
def dbC9 : Db :=
  { tracks := [(hexA, trackC9)], playlists := [(hexB, playlistC9)] }

/-- C9 witness: the concrete delete removes the track and leaves the
referencing playlist, stale reference included, untouched. -/
theorem C9_delete_track_frame_witness :
    (deleteTrack dbC9 hexA).status = 200 ∧
    (deleteTrack dbC9 hexA).success = true ∧
    findDoc (deleteTrack dbC9 hexA).db.tracks hexA = none ∧
    (deleteTrack dbC9 hexA).db.playlists = dbC9.playlists ∧
    findDoc (deleteTrack dbC9 hexA).db.playlists hexB = some playlistC9 ∧
    hexA ∈ playlistC9.tracks :=
  C9_delete_track_frame dbC9 hexA hexB trackC9 playlistC9 (by decide)
    (by decide) (by decide) (by decide)

/- ----------------------------------------------------------------
   C10: malformed object ids are rejected before any store access
   ---------------------------------------------------------------- -/

/-- C10: on every track/playlist endpoint with an :id (or :trackId) path
parameter, a parameter that is not a 24-hex object id yields exactly the
handleValidationErrors 400 response: the store is untouched and the
store-operation trace is empty — no document read, write or delete, and
no 404/500. -/
theorem C10_malformed_id_rejected
    (db : Db) (s other : String) (b : TrackBody) (pb : PlaylistBody)
    (tids : List String) (h : isMongoId s = false) :
    getTrackById db s = mk400 db ∧
    putTrack db s b = mk400 db ∧
    deleteTrack db s = mk400 db ∧
    getPlaylistById db s = mk400 db ∧
    putPlaylist db s pb = mk400 db ∧
    deletePlaylist db s = mk400 db ∧
    addTracksToPlaylist db s tids = mk400 db ∧
    removeTrackFromPlaylist db s other = mk400 db ∧
    removeTrackFromPlaylist db other s = mk400 db := by
  refine ⟨?_, ?_, ?_, ?_, ?_, ?_, ?_, ?_, ?_⟩
  · simp [getTrackById, h]
  · simp [putTrack, h]
  · simp [deleteTrack, h]
  · simp [getPlaylistById, h]
  · simp [putPlaylist, h]
  · simp [deletePlaylist, h]
  · simp [addTracksToPlaylist, h]
  · simp [removeTrackFromPlaylist, h]
  · simp [removeTrackFromPlaylist, h, Bool.and_false]

/-- C10 witness: the malformed id "nope" is rejected with the validation
400 on a representative read and a representative mutation endpoint. -/
theorem C10_malformed_id_rejected_witness :
    getTrackById ({} : Db) "nope" = mk400 {} ∧
    putPlaylist ({} : Db) "nope" {} = mk400 {} := by
  have h := C10_malformed_id_rejected {} "nope" hexA {} {} [] (by decide)
  exact ⟨h.1, h.2.2.2.2.1⟩

end TFE
